import Mathlib

/-!
# Plan State Synchronization Engine — shallow embedding

This file embeds the core of the `study_dashboard` repository in Lean 4 and
proves properties of it.  The embedded code comes from:

* `github_state_manager.py` — `GitHubStateManager` (save scheduler, change
  fingerprint, multi-record store, record lifecycle / date switch);
* `app.py` — `parse_time`, `check_time_conflicts`, `calculate_duration`,
  and the daily-summary completion rate computed at finalize time;
* `github_manager.py` — `GitHubDataManager.calculate_daily_metrics`.

Modelling conventions:

* Python `datetime.time` values are minutes since midnight (`Nat`); the
  source works at minute resolution (`'%H:%M'`).
* Calendar dates (ISO-8601 strings such as `"2025-01-31"` used as dictionary
  keys) are day numbers (`Int`); string comparison of well-formed ISO dates
  agrees with chronological order, and `fromisoformat` is the identity in the
  model.  Timestamps (`datetime.now(beijing_tz)`) are `Int` seconds.
* Values that in Python may hold either a `datetime.time` object or a raw
  string are `TimeVal`.
* Python dictionaries with a fixed field schema are structures; a field whose
  presence is tested with `in` / `.get(key, default)` and that may be absent
  in stored documents is an `Option`.  The remote date-keyed JSON object is an
  insertion-ordered association list, as a Python `dict` is.
* `hashlib.md5` of the canonical (`sort_keys=True`) JSON dump of the reduced
  state projection is modelled by the projection itself (`StateHash`): equal
  projections give equal digests, and distinct projections give distinct
  digests (ideal, collision-free hash).  The `sort_keys=True` canonical key
  ordering is implicit in the use of structures.
-/

/-- A value that is either a `datetime.time` (minutes since midnight) or a raw
string, as Python task/execution dictionaries may hold either. -/
inductive TimeVal where
  | time (minutes : Nat)
  | str (raw : String)
deriving Repr, DecidableEq

/-- Python `str.strip()`: remove leading and trailing whitespace. -/
def pyStrip (s : String) : String :=
  String.mk (((s.data.dropWhile Char.isWhitespace).reverse.dropWhile
    Char.isWhitespace).reverse)

/-- Split a character list at every `':'` (Python `str.split(':')`). -/
def splitColonAux : List Char → List Char → List (List Char)
  | [], acc => [acc.reverse]
  | c :: rest, acc =>
      if c = ':' then acc.reverse :: splitColonAux rest []
      else splitColonAux rest (c :: acc)

/-- Python `str.split(':')` on the characters of a string. -/
def splitColon (s : String) : List (List Char) :=
  splitColonAux s.data []

/-- Whether a string contains `':'` (Python `':' in s`). -/
def containsColon (s : String) : Bool :=
  s.data.contains ':'

/-- A 1–2 digit decimal field as accepted by `datetime.strptime`'s `%H`/`%M`
directives; `none` when the field is not such a digit string. -/
def digitField (cs : List Char) : Option Nat :=
  if 1 ≤ cs.length ∧ cs.length ≤ 2 ∧ cs.all Char.isDigit then
    some (cs.foldl (fun n c => 10 * n + (c.toNat - 48)) 0)
  else none

/-- `datetime.strptime(s, '%H:%M')` on a whole string: exactly an hour field,
one colon, and a minute field; result in minutes since midnight. -/
def parseHMExact (s : String) : Option Nat :=
  match splitColon s with
  | [h, m] =>
      match digitField h, digitField m with
      | some hh, some mm =>
          if hh ≤ 23 ∧ mm ≤ 59 then some (60 * hh + mm) else none
      | _, _ => none
  | _ => none

/-- The restore path's time parsing: the source splits on `':'` and feeds
`f"{parts[0]}:{parts[1]}"` (the first two segments) to
`strptime(..., '%H:%M')`. -/
def parseHM (s : String) : Option Nat :=
  match splitColon s with
  | h :: m :: _ =>
      match digitField h, digitField m with
      | some hh, some mm =>
          if hh ≤ 23 ∧ mm ≤ 59 then some (60 * hh + mm) else none
      | _, _ => none
  | _ => none

/-- `Char.ofNat (48 + n)`: the decimal digit character for `n < 10`. -/
def digitChar (n : Nat) : Char := Char.ofNat (48 + n)

/-- Two-digit zero-padded decimal rendering, as `strftime('%H')`/`('%M')`. -/
def pad2 (n : Nat) : String :=
  String.mk [digitChar (n / 10 % 10), digitChar (n % 10)]

/-- `time.strftime('%H:%M')` on a minutes-since-midnight value. -/
def formatHM (m : Nat) : String :=
  pad2 (m / 60) ++ ":" ++ pad2 (m % 60)

/-- `time.strftime('%H:%M:%S')` (the source stores `time_inputs_cache` values
with seconds, which are always zero at minute resolution). -/
def formatHMS (m : Nat) : String :=
  formatHM m ++ ":00"

/-- A planned task dictionary (`process_all_task_data` in `app.py` creates
these; stored documents hold the same shape with times as `"HH:MM"` strings).
The two time-of-day fields are the ones whose presence the source tests with
`'planned_start_time' in task`, hence `Option`. -/
structure PlanTask where
  task_id : Nat := 0
  task_name : String := ""
  subject : String := "math"
  difficulty : Nat := 3
  planned_start_time : Option TimeVal := none
  planned_end_time : Option TimeVal := none
  planned_duration : Int := 0
  planned_focus_duration : Int := 0
deriving Repr, DecidableEq

/-- An actual-execution dictionary. -/
structure Execution where
  task_id : Nat := 0
  actual_start_time : Option TimeVal := none
  actual_end_time : Option TimeVal := none
  actual_duration : Int := 0
  actual_focus_duration : Int := 0
  post_energy : Nat := 7
  completed : Bool := true
deriving Repr, DecidableEq

/-- One JSON value of the remote date-keyed document
(`daily_session_state.json`), i.e. the dictionary `_prepare_save_data`
produces.  Every field is optional because `_restore_from_data` reads each via
`data.get(key, default)` / `'key' in data`, and stored documents written by
older schema versions may miss fields. -/
structure StoredData where
  tasks_confirmed : Option Bool := none
  show_final_confirmation : Option Bool := none
  tasks_saved : Option Bool := none
  expander_expanded : Option Bool := none
  current_date : Option Int := none
  current_weather : Option String := none
  current_energy_level : Option Nat := none
  current_reflection : Option String := none
  planned_tasks : Option (List PlanTask) := none
  actual_execution : Option (List Execution) := none
  time_inputs_cache : Option (List (String × TimeVal)) := none
  last_auto_save : Option Int := none
  plan_date : Option Int := none
  plan_source : Option String := none
  created_at : Option Int := none
  last_modified : Option Int := none
  saved_at : Option Int := none
deriving Repr, DecidableEq

/-- The remote date-keyed mapping: ISO-date key (day number) to stored
record, insertion ordered like a Python `dict`. -/
abbrev Remote := List (Int × StoredData)

/-- The Streamlit session state, restricted to the keys the engine reads and
writes.  `current_date`/`plan_date` are `Option` because the source reads them
with `st.session_state.get(...)` and treats `None` as absent; `plan_source`
likewise. -/
structure SessionState where
  tasks_confirmed : Bool := false
  show_final_confirmation : Bool := false
  tasks_saved : Bool := false
  expander_expanded : Bool := true
  current_date : Option Int := none
  current_weather : String := "晴"
  current_energy_level : Nat := 7
  current_reflection : String := ""
  planned_tasks : List PlanTask := []
  actual_execution : List Execution := []
  time_inputs_cache : List (String × TimeVal) := []
  last_auto_save : Option Int := none
  plan_date : Option Int := none
  plan_source : Option String := none
  created_at : Int := 0
  last_modified : Int := 0
deriving Repr, DecidableEq

/-- The per-task projection `_get_state_hash` hashes ("深度处理任务数据"):
`task.get(field, default)` for exactly these six fields. -/
structure TaskHashProj where
  task_name : String
  subject : String
  difficulty : Nat
  planned_start_time : Option TimeVal
  planned_end_time : Option TimeVal
  planned_duration : Int
deriving Repr, DecidableEq

/-- The per-execution projection `_get_state_hash` hashes (note: it keeps
`task_id`, times, duration and `post_energy`, and drops `completed` and
`actual_focus_duration`). -/
structure ExecHashProj where
  task_id : Nat
  actual_start_time : Option TimeVal
  actual_end_time : Option TimeVal
  actual_duration : Int
  post_energy : Nat
deriving Repr, DecidableEq

/-- The full projection `_get_state_hash` feeds to
`md5(json.dumps(state_data, sort_keys=True, default=str))`.  The digest is
modelled by the canonical projection itself (ideal hash); `sort_keys=True`
makes the Python digest independent of dictionary key insertion order, which
the structure representation captures. -/
structure StateHash where
  planned_tasks : List TaskHashProj
  actual_execution : List ExecHashProj
  tasks_confirmed : Bool
  tasks_saved : Bool
  show_final_confirmation : Bool
  current_reflection : String
  current_weather : String
  current_energy_level : Nat
  current_date : Option Int
  time_inputs_cache : List (String × TimeVal)
  plan_source : String
  plan_date : Option Int
deriving Repr, DecidableEq

/-- Projection of one task for hashing (`_get_state_hash`, task loop). -/
def taskHashProj (t : PlanTask) : TaskHashProj :=
  { task_name := t.task_name
    subject := t.subject
    difficulty := t.difficulty
    planned_start_time := t.planned_start_time
    planned_end_time := t.planned_end_time
    planned_duration := t.planned_duration }

/-- Projection of one execution for hashing (`_get_state_hash`,
execution loop). -/
def execHashProj (e : Execution) : ExecHashProj :=
  { task_id := e.task_id
    actual_start_time := e.actual_start_time
    actual_end_time := e.actual_end_time
    actual_duration := e.actual_duration
    post_energy := e.post_energy }

/-- `GitHubStateManager._get_state_hash`. -/
def get_state_hash (s : SessionState) : StateHash :=
  { planned_tasks := s.planned_tasks.map taskHashProj
    actual_execution := s.actual_execution.map execHashProj
    tasks_confirmed := s.tasks_confirmed
    tasks_saved := s.tasks_saved
    show_final_confirmation := s.show_final_confirmation
    current_reflection := s.current_reflection
    current_weather := s.current_weather
    current_energy_level := s.current_energy_level
    current_date := s.current_date
    time_inputs_cache := s.time_inputs_cache
    plan_source := s.plan_source.getD "new"
    plan_date := s.plan_date }

/-- `GitHubStateManager._is_empty_state`. -/
def is_empty_state (s : SessionState) : Bool :=
  if ¬ (s.plan_source = none ∨ s.plan_source = some "new") then false
  else if s.planned_tasks.any (fun t => pyStrip t.task_name ≠ "") then false
  else if ¬ s.actual_execution.isEmpty then false
  else if pyStrip s.current_reflection ≠ "" then false
  else if s.tasks_confirmed ∨ s.tasks_saved then false
  else true

/-- Python dictionary assignment `m[k] = v` on the insertion-ordered
association list: replace the value in place when the key exists, otherwise
append the new pair. -/
def dictSet (m : List (Int × StoredData)) (k : Int) (v : StoredData) :
    List (Int × StoredData) :=
  if m.any (fun p => p.1 = k) then
    m.map (fun p => if p.1 = k then (k, v) else p)
  else m ++ [(k, v)]

/-- Python dictionary lookup `m[k]` / `k in m`. -/
def dictGet (m : List (Int × StoredData)) (k : Int) : Option StoredData :=
  (m.find? (fun p => p.1 = k)).map Prod.snd

/-- `GitHubStateManager._cleanup_old_states`: returns the sub-mapping of
entries whose (parseable) date key is within the last 30 days of `today`.
In the source an unparseable key is also kept; in the model every key is a
well-formed date.  Note the function only RETURNS the filtered copy — it does
not mutate its argument. -/
def cleanup_old_states (today : Int) (all_states : List (Int × StoredData)) :
    List (Int × StoredData) :=
  all_states.filter (fun p => today - 30 ≤ p.1)

/-- `GitHubStateManager._save_to_github` (the Multi-Record Store upsert):
load the whole mapping, assign `all_states[plan_date_key] = data`, call
`_cleanup_old_states` — whose return value the source discards — and write
the (untrimmed) mapping back.  Returns the new remote mapping and whether a
write happened (`save_raw_content` succeeds exactly when the GitHub
connection is up). -/
def save_to_github (connected : Bool) (today : Int)
    (remote : List (Int × StoredData)) (plan_date_key : Int)
    (data : StoredData) : List (Int × StoredData) × Bool :=
  if ¬ connected then (remote, false)
  else
    let all_states := dictSet remote plan_date_key data
    let _states_to_keep := cleanup_old_states today all_states
    (all_states, true)

/-- A sequence of `_save_to_github` upserts, each reading the mapping the
previous one wrote. -/
def upserts (connected : Bool) (today : Int)
    (remote : List (Int × StoredData)) (kvs : List (Int × StoredData)) :
    List (Int × StoredData) :=
  kvs.foldl (fun r kv => (save_to_github connected today r kv.1 kv.2).1) remote

/-- The restore path's conversion of one planned/actual time field
(`_restore_from_data`): a `time` object is left alone (`isinstance(..., str)`
fails); a string containing `':'` is parsed as `HH:MM` from its first two
colon-separated parts, falling back to the fixed `default` (in minutes) on
`ValueError`; a string without `':'` is left as the raw string. -/
def restore_time_field (default : Nat) : Option TimeVal → Option TimeVal
  | none => none
  | some (TimeVal.time m) => some (TimeVal.time m)
  | some (TimeVal.str s) =>
      if containsColon s then
        match parseHM s with
        | some m => some (TimeVal.time m)
        | none => some (TimeVal.time default)
      else some (TimeVal.str s)

/-- Task restoration in `_restore_from_data`: starts fall back to `09:00`
(540 minutes), ends to `10:00` (600 minutes). -/
def restoreTask (t : PlanTask) : PlanTask :=
  { t with
    planned_start_time := restore_time_field 540 t.planned_start_time
    planned_end_time := restore_time_field 600 t.planned_end_time }

/-- Execution restoration in `_restore_from_data` (same defaults). -/
def restoreExec (e : Execution) : Execution :=
  { e with
    actual_start_time := restore_time_field 540 e.actual_start_time
    actual_end_time := restore_time_field 600 e.actual_end_time }

/-- `time_inputs_cache` restoration in `_restore_from_data`: a string with
`':'` is parsed; on `ValueError` the ORIGINAL string is kept (not a fixed
default); anything else is kept as-is. -/
def restore_cache_value : TimeVal → TimeVal
  | TimeVal.time m => TimeVal.time m
  | TimeVal.str s =>
      if containsColon s then
        match parseHM s with
        | some m => TimeVal.time m
        | none => TimeVal.str s
      else TimeVal.str s

/-- `GitHubStateManager._restore_from_data`: repopulate the session from a
stored record, with per-field `data.get(key, default)` fallbacks.  `now` is
`datetime.now(beijing_tz)` (used as the default for the timestamps). -/
def restore_from_data (data : StoredData) (now : Int) (sess : SessionState) :
    SessionState :=
  let sess :=
    { sess with
      tasks_confirmed := data.tasks_confirmed.getD false
      show_final_confirmation := data.show_final_confirmation.getD false
      tasks_saved := data.tasks_saved.getD false
      expander_expanded := data.expander_expanded.getD true }
  let sess :=
    match data.current_date with
    | some d => { sess with current_date := some d, plan_date := some d }
    | none => sess
  let sess :=
    { sess with
      current_weather := data.current_weather.getD "晴"
      current_energy_level := data.current_energy_level.getD 7
      current_reflection := data.current_reflection.getD ""
      plan_source := some (data.plan_source.getD "loaded")
      created_at := data.created_at.getD now
      last_modified := data.last_modified.getD now
      planned_tasks := (data.planned_tasks.getD []).map restoreTask
      actual_execution := (data.actual_execution.getD []).map restoreExec
      time_inputs_cache :=
        (data.time_inputs_cache.getD []).map
          (fun kv => (kv.1, restore_cache_value kv.2)) }
  match data.last_auto_save with
  | some t => { sess with last_auto_save := some t }
  | none => sess

/-- `GitHubStateManager.load_from_github`: `none` models a `False` return
(not connected, or key absent); on a hit the session is repopulated via
`_restore_from_data`. -/
def load_from_github (connected : Bool) (now : Int) (remote : Remote)
    (plan_date_key : Int) (sess : SessionState) : Option SessionState :=
  if ¬ connected then none
  else
    match dictGet remote plan_date_key with
    | some data => some (restore_from_data data now sess)
    | none => none

/-- `GitHubStateManager._handle_plan_date_change`: switch the active plan
date to `new_plan_date`.  On a load hit the restored session stands; on a
miss, execution data, cache, reflection and the two final flags are cleared,
`plan_source` becomes `"date_changed"`, and — only when the new date is in
the past — planned tasks are cleared and `tasks_confirmed` reset. -/
def handle_plan_date_change (connected : Bool) (today now : Int)
    (new_plan_date : Int) (sess : SessionState) (remote : Remote) :
    SessionState :=
  let sess := { sess with plan_date := some new_plan_date }
  match load_from_github connected now remote new_plan_date sess with
  | some restored => restored
  | none =>
      let sess :=
        { sess with
          actual_execution := []
          time_inputs_cache := []
          current_reflection := ""
          tasks_saved := false
          show_final_confirmation := false
          plan_source := some "date_changed" }
      if new_plan_date < today then
        { sess with planned_tasks := [], tasks_confirmed := false }
      else sess

/-- `GitHubStateManager._ensure_state_consistency`: sync `plan_date` to
`current_date` when the latter is set, and default a missing `plan_source`
to `"new"`. -/
def ensure_state_consistency (sess : SessionState) : SessionState :=
  let sess :=
    match sess.current_date with
    | some d => { sess with plan_date := some d }
    | none => sess
  match sess.plan_source with
  | none => { sess with plan_source := some "new" }
  | some _ => sess

/-- Serialization of one time field in `_prepare_save_data`: `time` objects
become `"HH:MM"` strings; anything else is passed through. -/
def serialize_time_field : Option TimeVal → Option TimeVal
  | some (TimeVal.time m) => some (TimeVal.str (formatHM m))
  | v => v

/-- Task serialization in `_prepare_save_data`. -/
def serializeTask (t : PlanTask) : PlanTask :=
  { t with
    planned_start_time := serialize_time_field t.planned_start_time
    planned_end_time := serialize_time_field t.planned_end_time }

/-- Execution serialization in `_prepare_save_data`. -/
def serializeExec (e : Execution) : Execution :=
  { e with
    actual_start_time := serialize_time_field e.actual_start_time
    actual_end_time := serialize_time_field e.actual_end_time }

/-- Cache-value serialization in `_prepare_save_data` (`'%H:%M:%S'`). -/
def serialize_cache_value : TimeVal → TimeVal
  | TimeVal.time m => TimeVal.str (formatHMS m)
  | TimeVal.str s => TimeVal.str s

/-- `GitHubStateManager._prepare_save_data`. -/
def prepare_save_data (today now : Int) (sess : SessionState) : StoredData :=
  let plan_date_iso := sess.current_date.getD today
  { tasks_confirmed := some sess.tasks_confirmed
    show_final_confirmation := some sess.show_final_confirmation
    tasks_saved := some sess.tasks_saved
    expander_expanded := some sess.expander_expanded
    current_date := some plan_date_iso
    current_weather := some sess.current_weather
    current_energy_level := some sess.current_energy_level
    current_reflection := some sess.current_reflection
    planned_tasks := some (sess.planned_tasks.map serializeTask)
    actual_execution := some (sess.actual_execution.map serializeExec)
    time_inputs_cache :=
      some (sess.time_inputs_cache.map
        (fun kv => (kv.1, serialize_cache_value kv.2)))
    last_auto_save := some now
    plan_date := some plan_date_iso
    plan_source := some (sess.plan_source.getD "new")
    created_at := some sess.created_at
    last_modified := some now
    saved_at := some now }

/-- The rate gate of `auto_save_state`: skip when less than 30 seconds have
elapsed since the last successful save and `force` is off. -/
def rate_skip (mgr_last_save_time : Option Int) (now : Int) (force : Bool) :
    Bool :=
  match mgr_last_save_time with
  | some t => decide (now - t < 30) ∧ ¬ force
  | none => false

/-- The novelty gate of `auto_save_state`: outside the execution phase
(`has_actual` false), skip when the current fingerprint equals the one
recorded at the last successful save and `force` is off.  With execution data
present the source deliberately bypasses the check ("执行阶段：频繁保存"). -/
def novelty_skip (mgr_last_state_hash : Option StateHash) (h : StateHash)
    (has_actual force : Bool) : Bool :=
  if has_actual then false
  else
    !force &&
      match mgr_last_state_hash with
      | some h0 => decide (h0 = h)
      | none => false

/-- The manager's own mutable state (`self.last_save_time`,
`self.last_state_hash`). -/
structure ManagerState where
  last_save_time : Option Int := none
  last_state_hash : Option StateHash := none
deriving Repr, DecidableEq

/-- Result of one `auto_save_state` call: updated manager, session and remote
mapping, the boolean return value, and whether an actual remote write
happened. -/
structure SaveResult where
  mgr : ManagerState
  sess : SessionState
  remote : Remote
  saved : Bool
  wrote : Bool
deriving Repr, DecidableEq

/-- `GitHubStateManager.auto_save_state` (the Save Scheduler).  `today` is
`datetime.now(beijing_tz).date()` and `now` the full timestamp in seconds.
The force flag raised by the (dead) date-change branch only selects a sidebar
message in the source and is therefore not threaded further. -/
def auto_save_state (connected : Bool) (today now : Int) (mgr : ManagerState)
    (sess : SessionState) (remote : Remote) (force : Bool) : SaveResult :=
  if ¬ force ∧ is_empty_state sess then ⟨mgr, sess, remote, false, false⟩
  else if rate_skip mgr.last_save_time now force then
    ⟨mgr, sess, remote, false, false⟩
  else
    let current_state_hash := get_state_hash sess
    let has_actual := !sess.actual_execution.isEmpty
    if novelty_skip mgr.last_state_hash current_state_hash has_actual force then
      ⟨mgr, sess, remote, false, false⟩
    else
      let sess1 := ensure_state_consistency sess
      match sess1.current_date with
      | none => ⟨mgr, sess1, remote, false, false⟩
      | some plan_date =>
          let sess2 :=
            if sess1.plan_date ≠ some plan_date then
              handle_plan_date_change connected today now plan_date sess1 remote
            else sess1
          let save_data := prepare_save_data today now sess2
          let res := save_to_github connected today remote plan_date save_data
          if res.2 then
            ⟨{ last_save_time := some now,
               last_state_hash := some current_state_hash },
             { sess2 with last_auto_save := some now, last_modified := now },
             res.1, true, true⟩
          else ⟨mgr, sess2, remote, false, false⟩

/-- `GitHubStateManager._initialize_new_plan` for a fresh session: the
`default_states` dictionary (in the source each key is only set when not
already present; a fresh session has none of them). -/
def initialize_new_plan (plan_date now : Int) : SessionState :=
  { tasks_confirmed := false
    show_final_confirmation := false
    tasks_saved := false
    expander_expanded := true
    current_date := some plan_date
    current_weather := "晴"
    current_energy_level := 7
    current_reflection := ""
    planned_tasks := []
    actual_execution := []
    time_inputs_cache := []
    last_auto_save := none
    plan_date := some plan_date
    plan_source := some "new"
    created_at := now
    last_modified := now }

/-- `GitHubStateManager.clear_current_state`: reset the in-memory record to
defaults while keeping the current plan date, tag `plan_source = "cleared"`,
and delete the date's entry from the remote mapping (when connected).
Returns the new session, the new remote mapping, and the boolean result. -/
def clear_current_state (connected : Bool) (now : Int) (sess : SessionState)
    (remote : Remote) : SessionState × Remote × Bool :=
  match sess.current_date with
  | none => (sess, remote, false)
  | some plan_date =>
      let sess' : SessionState :=
        { tasks_confirmed := false
          show_final_confirmation := false
          tasks_saved := false
          expander_expanded := true
          current_date := some plan_date
          current_weather := "晴"
          current_energy_level := 7
          current_reflection := ""
          planned_tasks := []
          actual_execution := []
          time_inputs_cache := []
          last_auto_save := sess.last_auto_save
          plan_date := some plan_date
          plan_source := some "cleared"
          created_at := now
          last_modified := now }
      let remote' :=
        if connected then remote.filter (fun p => ¬ p.1 = plan_date)
        else remote
      (sess', remote', true)

/-- `parse_time` in `app.py`: a `time` object passes through; a string is fed
whole to `strptime('%H:%M')`; anything failing falls back to `09:00`
(540 minutes). -/
def parse_time : TimeVal → Nat
  | TimeVal.time m => m
  | TimeVal.str s => (parseHMExact s).getD 540

/-- One normalized time range of `check_time_conflicts`: the task name, and
start/end minutes after combining both times with the same reference date and
rolling the end forward a day (`+ 1440`) when `end ≤ start`. -/
def normalized_range (t : PlanTask) : Option (String × Nat × Nat) :=
  match t.planned_start_time, t.planned_end_time with
  | some sv, some ev =>
      let s := parse_time sv
      let e := parse_time ev
      let e := if e ≤ s then e + 1440 else e
      some (t.task_name, s, e)
  | _, _ => none

/-- The pairwise overlap scan of `check_time_conflicts`: for every pair
`i < j`, report when `range_i.start < range_j.end` and
`range_i.end > range_j.start`. -/
def conflict_scan : List (String × Nat × Nat) → List (String × String)
  | [] => []
  | r :: rest =>
      (rest.filterMap (fun r2 =>
        if r.2.1 < r2.2.2 ∧ r2.2.1 < r.2.2 then some (r.1, r2.1) else none))
        ++ conflict_scan rest

/-- `check_time_conflicts` in `app.py`: tasks lacking a time field are
skipped; the rest are normalized and scanned pairwise.  The returned list
models the list of conflict messages (one per conflicting pair). -/
def check_time_conflicts (planned_tasks : List PlanTask) :
    List (String × String) :=
  conflict_scan (planned_tasks.filterMap normalized_range)

/-- `calculate_duration` in `app.py`, applied in `process_all_task_data` to
`datetime.combine(current_date, start_time)` and
`datetime.combine(current_date, end_time)` — both on the SAME calendar date:
`max(0, int((end - start).total_seconds() / 60))`. -/
def calculate_duration (start_min end_min : Nat) : Int :=
  max 0 ((end_min : Int) - (start_min : Int))

/-- The `daily_summary` dictionary built at final-save time in `app.py`
stores `completion_rate` as `len(actual_execution) / len(planned_tasks)`
(0 when there are no planned tasks). -/
def daily_summary_completion_rate (planned_tasks : List PlanTask)
    (actual_execution : List Execution) : ℚ :=
  if planned_tasks ≠ [] then
    (actual_execution.length : ℚ) / (planned_tasks.length : ℚ)
  else 0

/-- One finalized historical record as read by the metrics consumer:
`day_data['daily_summary'].get(field, 0)` (fields may be missing). -/
structure DayData where
  date : Int := 0
  planned_total_time : Option ℚ := none
  actual_total_time : Option ℚ := none
  planned_focus_time : Option ℚ := none
  actual_focus_time : Option ℚ := none
deriving DecidableEq

/-- The metrics record `GitHubDataManager.calculate_daily_metrics`
returns. -/
structure DailyMetrics where
  date : Int
  completion_rate : ℚ
  focus_efficiency : ℚ
  planning_accuracy : ℚ
  total_focus_time : ℚ
deriving DecidableEq

/-- `GitHubDataManager.calculate_daily_metrics` in `github_manager.py`. -/
def calculate_daily_metrics (d : DayData) : DailyMetrics :=
  let planned_total := d.planned_total_time.getD 0
  let actual_total := d.actual_total_time.getD 0
  let actual_focus := d.actual_focus_time.getD 0
  { date := d.date
    completion_rate :=
      if 0 < planned_total then actual_total / planned_total else 0
    focus_efficiency :=
      if 0 < actual_total then actual_focus / actual_total else 0
    planning_accuracy :=
      if 0 < planned_total then 1 - |actual_total - planned_total| / planned_total
      else 0
    total_focus_time := actual_focus }

/-! ## Claim C1 — retention policy of the multi-record store -/

/-- Setting a key that is not yet in the mapping appends it. -/
lemma dictSet_eq_append (m : List (Int × StoredData)) (k : Int) (v : StoredData)
    (h : k ∉ m.map Prod.fst) : dictSet m k v = m ++ [(k, v)] := by
  have hany : m.any (fun p => p.1 = k) = false := by
    simp only [List.any_eq_false, decide_eq_true_eq]
    intro p hp he
    exact h (he ▸ List.mem_map_of_mem Prod.fst hp)
  simp [dictSet, hany]

/-- Key inventory of a sequence of upserts: every upserted key stays. -/
lemma upserts_keys (today : Int) (kvs : List (Int × StoredData)) :
    ∀ remote : Remote, (remote.map Prod.fst ++ kvs.map Prod.fst).Nodup →
      (upserts true today remote kvs).map Prod.fst
        = remote.map Prod.fst ++ kvs.map Prod.fst := by
  induction kvs with
  | nil => intro remote _; simp [upserts]
  | cons kv rest ih =>
      intro remote h
      have hk : kv.1 ∉ remote.map Prod.fst := by
        rcases List.nodup_append.mp h with ⟨-, -, hdis⟩
        exact fun hm => hdis hm (by simp)
      have hstep : upserts true today remote (kv :: rest)
          = upserts true today (remote ++ [kv]) rest := by
        simp [upserts, save_to_github, dictSet_eq_append _ _ _ hk]
      have hnodup : ((remote ++ [kv]).map Prod.fst ++ rest.map Prod.fst).Nodup := by
        simpa [List.append_assoc] using h
      rw [hstep, ih (remote ++ [kv]) hnodup]
      simp

/-- C1 counterexample: with the retention limit N = 7, ten sequential upserts
with distinct recent date keys leave a mapping of ten keys, not seven — the
source calls `_cleanup_old_states` but discards its return value, so no
retention trim is ever applied to the written mapping. -/
theorem c1_retention_counterexample :
    (upserts true 100 []
      [(91, {}), (92, {}), (93, {}), (94, {}), (95, {}), (96, {}), (97, {}),
       (98, {}), (99, {}), (100, {})]).length = 10
    ∧ ¬ (upserts true 100 []
      [(91, {}), (92, {}), (93, {}), (94, {}), (95, {}), (96, {}), (97, {}),
       (98, {}), (99, {}), (100, {})]).length = 7 := by
  decide

/-- C1 amended: after any sequence of upserts with pairwise-distinct date
keys (distinct also from the keys already stored), the remote mapping
contains every upserted key — `_save_to_github` computes the 30-day cleanup
copy but writes the untrimmed mapping, so nothing is ever dropped and the
mapping grows by exactly one entry per fresh key. -/
theorem c1_retention_amended (today : Int) (kvs : List (Int × StoredData))
    (remote : Remote)
    (h : (remote.map Prod.fst ++ kvs.map Prod.fst).Nodup) :
    (upserts true today remote kvs).map Prod.fst
      = remote.map Prod.fst ++ kvs.map Prod.fst
    ∧ (upserts true today remote kvs).length = remote.length + kvs.length := by
  have h1 := upserts_keys today kvs remote h
  refine ⟨h1, ?_⟩
  have h2 := congrArg List.length h1
  simpa using h2

/-- Concrete instance of `c1_retention_amended`: ten upserts into an empty
store leave ten entries. -/
theorem c1_retention_amended_witness :
    ((([] : Remote).map Prod.fst
        ++ ([(91, {}), (92, {}), (93, {}), (94, {}), (95, {}), (96, {}),
             (97, {}), (98, {}), (99, {}),
             (100, {})] : List (Int × StoredData)).map Prod.fst).Nodup)
    ∧ (upserts true 100 []
        [(91, {}), (92, {}), (93, {}), (94, {}), (95, {}), (96, {}), (97, {}),
         (98, {}), (99, {}), (100, {})]).length = 10 := by
  refine ⟨by decide, ?_⟩
  have h := (c1_retention_amended 100
    [(91, {}), (92, {}), (93, {}), (94, {}), (95, {}), (96, {}), (97, {}),
     (98, {}), (99, {}), (100, {})] [] (by decide)).2
  simpa using h

/-! ## Claim C3 — pairwise time-interval overlap check -/

/-- A task with plain `time` start/end values, as `process_all_task_data`
builds them. -/
def mkTimedTask (n : String) (s e : Nat) : PlanTask :=
  { task_name := n
    planned_start_time := some (TimeVal.time s)
    planned_end_time := some (TimeVal.time e) }

/-- C3 counterexample: the overnight pair 23:00–01:00 and 00:30–02:00 is NOT
reported as conflicting — normalization maps them to [23:00, 25:00) and
[00:30, 02:00) on the same reference date, which are disjoint. -/
theorem c3_overlap_counterexample :
    check_time_conflicts
      [mkTimedTask "A" 1380 60, mkTimedTask "B" 30 120] = [] := by
  decide

/-- C3 amended: two timed tasks are reported as conflicting iff
`start₁ < end₂ ∧ start₂ < end₁` after normalizing both intervals to the same
reference date and rolling an end forward one day when `end ≤ start`;
[09:00–10:00] vs [09:30–10:30] conflict and [09:00–10:00] vs [10:00–11:00] do
not, but the overnight pair [23:00–01:00] vs [00:30–02:00] does NOT conflict
under this normalization. -/
theorem c3_overlap_amended (n1 n2 : String) (s1 e1 s2 e2 : Nat) :
    (check_time_conflicts [mkTimedTask n1 s1 e1, mkTimedTask n2 s2 e2] ≠ []
      ↔ (s1 < (if e2 ≤ s2 then e2 + 1440 else e2)
          ∧ s2 < (if e1 ≤ s1 then e1 + 1440 else e1)))
    ∧ check_time_conflicts
        [mkTimedTask "A" 540 600, mkTimedTask "B" 570 630] = [("A", "B")]
    ∧ check_time_conflicts
        [mkTimedTask "A" 540 600, mkTimedTask "B" 600 660] = []
    ∧ check_time_conflicts
        [mkTimedTask "A" 1380 60, mkTimedTask "B" 30 120] = [] := by
  refine ⟨?_, by decide, by decide, by decide⟩
  by_cases hc : s1 < (if e2 ≤ s2 then e2 + 1440 else e2)
      ∧ s2 < (if e1 ≤ s1 then e1 + 1440 else e1) <;>
    simp [check_time_conflicts, conflict_scan, normalized_range, mkTimedTask,
      parse_time, hc]

/-! ## Claim C5 — planned duration computation -/

/-- C5 counterexample: a task from 23:00 to 01:00 gets planned duration 0,
not 120 — `calculate_duration` clamps at zero and never wraps to the next
day. -/
theorem c5_duration_counterexample :
    calculate_duration 1380 60 = 0 ∧ ¬ calculate_duration 1380 60 = 120 := by
  decide

/-- C5 amended: `plannedDuration` is `max(0, end − start)` in minutes with
both times placed on the same calendar date: it equals `end − start` when
`start ≤ end`, is 0 (not the wrapped overnight length) when `end < start`,
and is never negative. -/
theorem c5_duration_amended (s e : Nat) :
    0 ≤ calculate_duration s e
    ∧ (s ≤ e → calculate_duration s e = (e : Int) - (s : Int))
    ∧ (e < s → calculate_duration s e = 0) := by
  unfold calculate_duration
  refine ⟨le_max_left _ _, fun h => ?_, fun h => ?_⟩ <;>
    rw [max_def] <;> split <;> omega

/-- Concrete instance of `c5_duration_amended`. -/
theorem c5_duration_amended_witness :
    (0 ≤ calculate_duration 540 600
        ∧ calculate_duration 540 600 = (600 : Int) - (540 : Int))
    ∧ calculate_duration 1380 60 = 0 := by
  exact ⟨⟨(c5_duration_amended 540 600).1,
    (c5_duration_amended 540 600).2.1 (by decide)⟩,
    (c5_duration_amended 1380 60).2.2 (by decide)⟩

/-! ## Claim C9 — daily metrics formulas -/

/-- C9 counterexample: with two planned tasks, two executions, planned total
time 100 and actual total time 50, the metrics consumer computes
`completion_rate = 50/100 = 1/2` — the time ratio — while the
execution-count / task-count ratio (stored in the record's `daily_summary`
at finalize time) is `2/2 = 1`. -/
theorem c9_metrics_counterexample :
    (calculate_daily_metrics
      { planned_total_time := some 100,
        actual_total_time := some 50 }).completion_rate = 1 / 2
    ∧ daily_summary_completion_rate
        [mkTimedTask "A" 540 600, mkTimedTask "B" 600 660] [{}, {}] = 1
    ∧ ((1 : ℚ) / 2) ≠ 1 := by
  refine ⟨?_, ?_, by norm_num⟩
  · norm_num [calculate_daily_metrics]
  · have hne : [mkTimedTask "A" 540 600, mkTimedTask "B" 600 660]
        ≠ ([] : List PlanTask) := by simp
    norm_num [daily_summary_completion_rate, hne]

/-- C9 amended: `calculate_daily_metrics` computes
`completionRate = actualTotalTime / plannedTotalTime` (not the
execution-count over task-count ratio, which is only stored in the finalized
record's `daily_summary`), `focusEfficiency = actualFocusTime /
actualTotalTime` and `planningAccuracy = 1 − |actualTotal − plannedTotal| /
plannedTotal`, each ratio being 0 when its denominator is not positive. -/
theorem c9_metrics_amended (d d0 d1 : DayData) (p a f : ℚ)
    (hp : d.planned_total_time = some p) (ha : d.actual_total_time = some a)
    (hf : d.actual_focus_time = some f) (hpp : 0 < p) (hap : 0 < a)
    (h0 : d0.planned_total_time.getD 0 ≤ 0)
    (h1 : d1.actual_total_time.getD 0 ≤ 0) :
    (calculate_daily_metrics d).completion_rate = a / p
    ∧ (calculate_daily_metrics d).focus_efficiency = f / a
    ∧ (calculate_daily_metrics d).planning_accuracy = 1 - |a - p| / p
    ∧ (calculate_daily_metrics d0).completion_rate = 0
    ∧ (calculate_daily_metrics d0).planning_accuracy = 0
    ∧ (calculate_daily_metrics d1).focus_efficiency = 0 := by
  refine ⟨?_, ?_, ?_, ?_, ?_, ?_⟩ <;>
    simp [calculate_daily_metrics, hp, ha, hf, hpp, hap,
      not_lt.mpr h0, not_lt.mpr h1]

/-- Concrete instance of `c9_metrics_amended`. -/
theorem c9_metrics_amended_witness :
    (calculate_daily_metrics
      { planned_total_time := some 100, actual_total_time := some 50,
        actual_focus_time := some 40 }).completion_rate = (50 : ℚ) / 100
    ∧ (calculate_daily_metrics ({} : DayData)).completion_rate = 0 := by
  have h := c9_metrics_amended
    { planned_total_time := some 100, actual_total_time := some 50,
      actual_focus_time := some 40 } {} {} 100 50 40
    rfl rfl rfl (by norm_num) (by norm_num) (by norm_num) (by norm_num)
  exact ⟨h.1, h.2.2.2.1⟩

/-! ## Claim C10 — clearing the current plan date -/

/-- Looking a key up after filtering it out yields nothing. -/
lemma dictGet_filter_self (remote : Remote) (d : Int) :
    dictGet (remote.filter (fun p => ¬ p.1 = d)) d = none := by
  unfold dictGet
  rw [List.find?_eq_none.mpr]
  · rfl
  · intro p hp
    have := (List.mem_filter.mp hp).2
    simpa using this

/-- C10 confirmed: with a current date set and the store connected, clearing
resets the whole in-memory record to defaults (empty task and execution
lists, all confirmation flags false, empty reflection) while keeping the
current date, removes the date's entry from the remote mapping, reports
success, and tags `plan_source` with `"cleared"` — a value outside the
specified set {new, inherited_from_<date>, date_changed}. -/
theorem c10_clear_current_state (connected : Bool) (now : Int)
    (sess : SessionState) (remote : Remote) (d : Int)
    (hd : sess.current_date = some d) (hc : connected = true) :
    (clear_current_state connected now sess remote).2.2 = true
    ∧ (clear_current_state connected now sess remote).1 =
        { tasks_confirmed := false
          show_final_confirmation := false
          tasks_saved := false
          expander_expanded := true
          current_date := some d
          current_weather := "晴"
          current_energy_level := 7
          current_reflection := ""
          planned_tasks := []
          actual_execution := []
          time_inputs_cache := []
          last_auto_save := sess.last_auto_save
          plan_date := some d
          plan_source := some "cleared"
          created_at := now
          last_modified := now }
    ∧ dictGet (clear_current_state connected now sess remote).2.1 d = none
    ∧ ("cleared" : String) ≠ "new"
    ∧ ("cleared" : String) ≠ "date_changed"
    ∧ ∀ src : String, ("cleared" : String) ≠ "inherited_from_" ++ src := by
  refine ⟨?_, ?_, ?_, by decide, by decide, ?_⟩
  · simp [clear_current_state, hd]
  · simp [clear_current_state, hd]
  · simp only [clear_current_state, hd, hc, if_pos]
    exact dictGet_filter_self remote d
  · intro src h
    have hlen := congrArg String.length h
    rw [String.length_append] at hlen
    have h7 : ("cleared" : String).length = 7 := by decide
    have h15 : ("inherited_from_" : String).length = 15 := by decide
    omega

/-- Concrete instance of `c10_clear_current_state`. -/
theorem c10_clear_current_state_witness :
    (clear_current_state true 1 (initialize_new_plan 3 0)
        [(3, {}), (4, {})]).2.2 = true
    ∧ dictGet (clear_current_state true 1 (initialize_new_plan 3 0)
        [(3, {}), (4, {})]).2.1 3 = none := by
  have h := c10_clear_current_state true 1 (initialize_new_plan 3 0)
    [(3, {}), (4, {})] 3 rfl rfl
  exact ⟨h.1, h.2.2.1⟩

/-! ## Claim C4 — date switch to a date with no stored record -/

/-- A load that misses (disconnected, or no entry for the key) returns
nothing. -/
lemma load_from_github_none (connected : Bool) (now : Int) (remote : Remote)
    (k : Int) (sess : SessionState)
    (h : connected = false ∨ dictGet remote k = none) :
    load_from_github connected now remote k sess = none := by
  rcases h with h | h <;> simp [load_from_github, h]

/-- C4 counterexample: switching to a future date with no stored record
keeps the planned tasks and their confirmation and tags
`plan_source = "date_changed"`, not `"new"` with cleared tasks. -/
theorem c4_fresh_day_counterexample :
    (handle_plan_date_change true 0 0 1
      { initialize_new_plan 0 0 with
        planned_tasks := [{ task_name := "t" }],
        tasks_confirmed := true } []).plan_source = some "date_changed"
    ∧ (handle_plan_date_change true 0 0 1
      { initialize_new_plan 0 0 with
        planned_tasks := [{ task_name := "t" }],
        tasks_confirmed := true } []).plan_source ≠ some "new"
    ∧ (handle_plan_date_change true 0 0 1
      { initialize_new_plan 0 0 with
        planned_tasks := [{ task_name := "t" }],
        tasks_confirmed := true } []).planned_tasks ≠ []
    ∧ (handle_plan_date_change true 0 0 1
      { initialize_new_plan 0 0 with
        planned_tasks := [{ task_name := "t" }],
        tasks_confirmed := true } []).tasks_confirmed = true := by
  decide

/-- C4 amended: on a switch to a date with no stored record the engine
clears execution data, the time cache, the reflection and the two
final-confirmation flags and tags `plan_source = "date_changed"` (not
`"new"`); planned tasks and `tasks_confirmed` are cleared/reset only when
the new date lies in the past, and are kept unchanged otherwise. -/
theorem c4_date_switch_amended (connected : Bool) (today now newd : Int)
    (sess : SessionState) (remote : Remote)
    (h : connected = false ∨ dictGet remote newd = none) :
    (handle_plan_date_change connected today now newd sess remote).plan_source
        = some "date_changed"
    ∧ (handle_plan_date_change connected today now newd sess
        remote).actual_execution = []
    ∧ (handle_plan_date_change connected today now newd sess
        remote).time_inputs_cache = []
    ∧ (handle_plan_date_change connected today now newd sess
        remote).current_reflection = ""
    ∧ (handle_plan_date_change connected today now newd sess
        remote).tasks_saved = false
    ∧ (handle_plan_date_change connected today now newd sess
        remote).show_final_confirmation = false
    ∧ (handle_plan_date_change connected today now newd sess
        remote).plan_date = some newd
    ∧ (handle_plan_date_change connected today now newd sess
        remote).current_date = sess.current_date
    ∧ (newd < today →
        (handle_plan_date_change connected today now newd sess
          remote).planned_tasks = []
        ∧ (handle_plan_date_change connected today now newd sess
            remote).tasks_confirmed = false)
    ∧ (today ≤ newd →
        (handle_plan_date_change connected today now newd sess
          remote).planned_tasks = sess.planned_tasks
        ∧ (handle_plan_date_change connected today now newd sess
            remote).tasks_confirmed = sess.tasks_confirmed) := by
  have hl := load_from_github_none connected now remote newd
    { sess with plan_date := some newd } h
  by_cases hlt : newd < today <;>
    simp [handle_plan_date_change, hl, hlt, not_lt.mp, le_of_not_lt]

/-- Concrete instances of `c4_date_switch_amended` for a future and a past
target date. -/
theorem c4_date_switch_amended_witness :
    ((handle_plan_date_change true 0 0 1 (initialize_new_plan 0 0)
        []).plan_source = some "date_changed")
    ∧ ((handle_plan_date_change true 5 0 1 (initialize_new_plan 0 0)
        []).planned_tasks = []) := by
  refine ⟨(c4_date_switch_amended true 0 0 1 (initialize_new_plan 0 0) []
    (Or.inr rfl)).1, ?_⟩
  exact ((c4_date_switch_amended true 5 0 1 (initialize_new_plan 0 0) []
    (Or.inr rfl)).2.2.2.2.2.2.2.2.1 (by norm_num)).1

/-! ## Claim C8 — tolerant decoding of stored records -/

/-- C8 counterexample: the stored time string `"0900"` fails `HH:MM` parsing
(it has no colon) yet is NOT replaced by the fixed default `09:00` — the
restore path only enters its fallback when the string contains `':'`, so
`"0900"` survives as a raw string in the restored task. -/
theorem c8_tolerant_decode_counterexample :
    (restore_from_data
      { planned_tasks :=
          some [{ task_name := "t",
                  planned_start_time := some (TimeVal.str "0900") }] }
      0 (initialize_new_plan 0 0)).planned_tasks.map
        (fun t => t.planned_start_time) = [some (TimeVal.str "0900")]
    ∧ (restore_from_data
      { planned_tasks :=
          some [{ task_name := "t",
                  planned_start_time := some (TimeVal.str "0900") }] }
      0 (initialize_new_plan 0 0)).planned_tasks.map
        (fun t => t.planned_start_time) ≠ [some (TimeVal.time 540)] := by
  decide

/-- C8 amended: decoding is total and per-field tolerant — a time string
CONTAINING `':'` that fails `HH:MM` parsing falls back to the fixed default
(09:00 for starts, 10:00 for ends, passed as `d` minutes), one that parses
becomes the parsed time, but a time string WITHOUT `':'` is left as the raw
string (no default is substituted); every missing optional field takes the
record default. -/
theorem c8_tolerant_decode_amended (d m : Nat) (s : String) (data : StoredData)
    (now : Int) (sess : SessionState) :
    (containsColon s = true → parseHM s = none →
        restore_time_field d (some (TimeVal.str s)) = some (TimeVal.time d))
    ∧ (containsColon s = true → parseHM s = some m →
        restore_time_field d (some (TimeVal.str s)) = some (TimeVal.time m))
    ∧ (containsColon s = false →
        restore_time_field d (some (TimeVal.str s)) = some (TimeVal.str s))
    ∧ (restore_from_data data now sess).planned_tasks
        = (data.planned_tasks.getD []).map restoreTask
    ∧ (restore_from_data data now sess).actual_execution
        = (data.actual_execution.getD []).map restoreExec
    ∧ (data.tasks_confirmed = none →
        (restore_from_data data now sess).tasks_confirmed = false)
    ∧ (data.current_weather = none →
        (restore_from_data data now sess).current_weather = "晴")
    ∧ (data.current_energy_level = none →
        (restore_from_data data now sess).current_energy_level = 7)
    ∧ (data.current_reflection = none →
        (restore_from_data data now sess).current_reflection = "")
    ∧ (data.plan_source = none →
        (restore_from_data data now sess).plan_source = some "loaded") := by
  refine ⟨fun h1 h2 => by simp [restore_time_field, h1, h2],
    fun h1 h2 => by simp [restore_time_field, h1, h2],
    fun h1 => by simp [restore_time_field, h1],
    ?_, ?_, fun h => ?_, fun h => ?_, fun h => ?_, fun h => ?_,
    fun h => ?_⟩ <;>
  · cases hcd : data.current_date <;> cases hla : data.last_auto_save <;>
      simp [restore_from_data, hcd, hla, *]

/-- Concrete instances of `c8_tolerant_decode_amended`: an unparseable
colon string defaults, a parseable one parses, a colon-less one survives
raw, and a missing field takes its default. -/
theorem c8_tolerant_decode_amended_witness :
    restore_time_field 540 (some (TimeVal.str "ab:cd"))
        = some (TimeVal.time 540)
    ∧ restore_time_field 600 (some (TimeVal.str "9:30"))
        = some (TimeVal.time 570)
    ∧ restore_time_field 540 (some (TimeVal.str "0900"))
        = some (TimeVal.str "0900")
    ∧ (restore_from_data {} 5 (initialize_new_plan 0 0)).plan_source
        = some "loaded" :=
  ⟨(c8_tolerant_decode_amended 540 0 "ab:cd" {} 5
      (initialize_new_plan 0 0)).1 (by decide) (by decide),
   (c8_tolerant_decode_amended 600 570 "9:30" {} 5
      (initialize_new_plan 0 0)).2.1 (by decide) (by decide),
   (c8_tolerant_decode_amended 540 0 "0900" {} 5
      (initialize_new_plan 0 0)).2.2.1 (by decide),
   (c8_tolerant_decode_amended 540 0 "x" {} 5
      (initialize_new_plan 0 0)).2.2.2.2.2.2.2.2.2 rfl⟩

/-! ## Claim C7 — change-fingerprint projection -/

/-- A fresh session for the fingerprint counterexample. -/
def c7sessA : SessionState := initialize_new_plan 0 0

/-- The same session with one entry in the UI time-input cache — every field
the claim lists as meaningful is unchanged. -/
def c7sessB : SessionState :=
  { initialize_new_plan 0 0 with
    time_inputs_cache := [("start_0", TimeVal.time 540)] }

/-- C7 counterexample: two states with identical task data, execution data,
confirmation flags and reflection text — differing only in the UI time-input
cache — get DIFFERENT fingerprints, because `_get_state_hash` hashes
`time_inputs_cache`. -/
theorem c7_fingerprint_counterexample :
    c7sessA.planned_tasks = c7sessB.planned_tasks
    ∧ c7sessA.actual_execution = c7sessB.actual_execution
    ∧ c7sessA.tasks_confirmed = c7sessB.tasks_confirmed
    ∧ c7sessA.tasks_saved = c7sessB.tasks_saved
    ∧ c7sessA.show_final_confirmation = c7sessB.show_final_confirmation
    ∧ c7sessA.current_reflection = c7sessB.current_reflection
    ∧ get_state_hash c7sessA ≠ get_state_hash c7sessB := by
  decide

/-- C7 amended: the fingerprint is exactly the canonical projection of the
state onto {task projections, execution projections, the three confirmation
flags, reflection, weather, energy level, current date, plan date, plan
source, and the UI time-input cache}; it is insensitive to the UI expansion
flag and the derived timestamps, and equal fingerprints force equality of
every projected component (including the cache, which the claim wrongly
excludes). -/
theorem c7_fingerprint_amended (s s1 s2 : SessionState) (e : Bool)
    (c lm : Int) (la : Option Int) :
    get_state_hash { s with expander_expanded := e, created_at := c,
                            last_modified := lm, last_auto_save := la }
      = get_state_hash s
    ∧ (get_state_hash s1 = get_state_hash s2 →
        s1.planned_tasks.map taskHashProj = s2.planned_tasks.map taskHashProj
        ∧ s1.actual_execution.map execHashProj
            = s2.actual_execution.map execHashProj
        ∧ s1.tasks_confirmed = s2.tasks_confirmed
        ∧ s1.tasks_saved = s2.tasks_saved
        ∧ s1.show_final_confirmation = s2.show_final_confirmation
        ∧ s1.current_reflection = s2.current_reflection
        ∧ s1.current_weather = s2.current_weather
        ∧ s1.current_energy_level = s2.current_energy_level
        ∧ s1.current_date = s2.current_date
        ∧ s1.time_inputs_cache = s2.time_inputs_cache
        ∧ s1.plan_source.getD "new" = s2.plan_source.getD "new"
        ∧ s1.plan_date = s2.plan_date) := by
  refine ⟨rfl, fun h => ?_⟩
  exact ⟨congrArg StateHash.planned_tasks h,
    congrArg StateHash.actual_execution h,
    congrArg StateHash.tasks_confirmed h,
    congrArg StateHash.tasks_saved h,
    congrArg StateHash.show_final_confirmation h,
    congrArg StateHash.current_reflection h,
    congrArg StateHash.current_weather h,
    congrArg StateHash.current_energy_level h,
    congrArg StateHash.current_date h,
    congrArg StateHash.time_inputs_cache h,
    congrArg StateHash.plan_source h,
    congrArg StateHash.plan_date h⟩

/-- Concrete instance of `c7_fingerprint_amended`. -/
theorem c7_fingerprint_amended_witness :
    get_state_hash { initialize_new_plan 0 0 with
                     expander_expanded := false, created_at := 9,
                     last_modified := 9, last_auto_save := some 1 }
      = get_state_hash (initialize_new_plan 0 0)
    ∧ (initialize_new_plan 0 0).current_reflection
        = (initialize_new_plan 0 0).current_reflection := by
  have h := c7_fingerprint_amended (initialize_new_plan 0 0)
    (initialize_new_plan 0 0) (initialize_new_plan 0 0) false 9 9 (some 1)
  exact ⟨h.1, (h.2 rfl).2.2.2.2.2.1⟩

/-! ## Claim C6 — the emptiness gate -/

/-- A record with no named tasks, no executions, blank reflection and both
flags off is empty in the sense of `_is_empty_state` — PROVIDED its
`plan_source` is `None` or `"new"`. -/
lemma is_empty_state_of (sess : SessionState)
    (h1 : ∀ t ∈ sess.planned_tasks, pyStrip t.task_name = "")
    (h2 : sess.actual_execution = [])
    (h3 : pyStrip sess.current_reflection = "")
    (h4 : sess.tasks_confirmed = false) (h5 : sess.tasks_saved = false)
    (h6 : sess.plan_source = none ∨ sess.plan_source = some "new") :
    is_empty_state sess = true := by
  have hany : sess.planned_tasks.any
      (fun t => pyStrip t.task_name ≠ "") = false := by
    rw [List.any_eq_false]
    intro t ht
    simp [h1 t ht]
  rcases h6 with h6 | h6 <;>
    simp [is_empty_state, hany, h2, h3, h4, h5, h6] <;>
    exact h1

/-- The emptiness gate short-circuits a non-forced save. -/
lemma auto_save_skip_of_empty (connected : Bool) (today now : Int)
    (mgr : ManagerState) (sess : SessionState) (remote : Remote)
    (he : is_empty_state sess = true) :
    auto_save_state connected today now mgr sess remote false
      = ⟨mgr, sess, remote, false, false⟩ := by
  simp [auto_save_state, he]

/-- C6 counterexample: a record with no named tasks, no executions, blank
reflection and both flags off is still written by a non-forced save when its
`plan_source` is `"date_changed"` — the emptiness gate treats any
`plan_source` outside {None, "new"} as non-empty. -/
theorem c6_empty_gate_counterexample :
    ({ initialize_new_plan 0 0 with
       plan_source := some "date_changed" } : SessionState).planned_tasks = []
    ∧ ({ initialize_new_plan 0 0 with
         plan_source := some "date_changed" } : SessionState).actual_execution
        = []
    ∧ ({ initialize_new_plan 0 0 with
         plan_source := some "date_changed" } : SessionState).current_reflection
        = ""
    ∧ ({ initialize_new_plan 0 0 with
         plan_source := some "date_changed" } : SessionState).tasks_confirmed
        = false
    ∧ ({ initialize_new_plan 0 0 with
         plan_source := some "date_changed" } : SessionState).tasks_saved
        = false
    ∧ (auto_save_state true 0 0 {}
        { initialize_new_plan 0 0 with plan_source := some "date_changed" }
        [] false).wrote = true := by
  decide

/-- C6 amended: a non-forced save of a record with no named tasks, no
executions, blank reflection and neither flag set is skipped — leaving the
remote mapping untouched — whenever `plan_source` is `None` or `"new"`; the
gate does NOT fire for any other `plan_source` tag. -/
theorem c6_empty_gate_amended (connected : Bool) (today now : Int)
    (mgr : ManagerState) (sess : SessionState) (remote : Remote)
    (h1 : ∀ t ∈ sess.planned_tasks, pyStrip t.task_name = "")
    (h2 : sess.actual_execution = [])
    (h3 : pyStrip sess.current_reflection = "")
    (h4 : sess.tasks_confirmed = false) (h5 : sess.tasks_saved = false)
    (h6 : sess.plan_source = none ∨ sess.plan_source = some "new") :
    (auto_save_state connected today now mgr sess remote false).wrote = false
    ∧ (auto_save_state connected today now mgr sess remote false).saved = false
    ∧ (auto_save_state connected today now mgr sess remote false).remote
        = remote := by
  rw [auto_save_skip_of_empty connected today now mgr sess remote
    (is_empty_state_of sess h1 h2 h3 h4 h5 h6)]
  exact ⟨rfl, rfl, rfl⟩

/-- Concrete instance of `c6_empty_gate_amended`: a fresh `"new"` record is
not written. -/
theorem c6_empty_gate_amended_witness :
    (auto_save_state true 0 0 {} (initialize_new_plan 0 0) [] false).wrote
      = false := by
  exact (c6_empty_gate_amended true 0 0 {} (initialize_new_plan 0 0) []
    (fun t ht => absurd ht (by simp [initialize_new_plan]))
    rfl (by decide) rfl rfl (Or.inr rfl)).1


/-! ## Claim C2 — idempotence of consecutive non-forced saves -/

/-- `_ensure_state_consistency` does not change `current_date`. -/
lemma ensure_current_date (s : SessionState) :
    (ensure_state_consistency s).current_date = s.current_date := by
  unfold ensure_state_consistency
  cases hcd : s.current_date <;> cases hps : s.plan_source <;> simp [hcd, hps]

/-- `_ensure_state_consistency` does not change the execution list. -/
lemma ensure_actual_execution (s : SessionState) :
    (ensure_state_consistency s).actual_execution = s.actual_execution := by
  unfold ensure_state_consistency
  cases hcd : s.current_date <;> cases hps : s.plan_source <;> simp [hcd, hps]

/-- After `_ensure_state_consistency`, `plan_date` equals the (set)
current date. -/
lemma ensure_plan_date (s : SessionState) (d : Int)
    (h : s.current_date = some d) :
    (ensure_state_consistency s).plan_date = some d := by
  unfold ensure_state_consistency
  cases hps : s.plan_source <;> simp [h, hps]

/-- On a session whose `plan_date` already agrees with `current_date`,
`_ensure_state_consistency` does not change the fingerprint (the hash reads
`plan_source` through the same `"new"` default the consistency pass
writes). -/
lemma get_state_hash_ensure (s : SessionState)
    (h : s.plan_date = s.current_date) :
    get_state_hash (ensure_state_consistency s) = get_state_hash s := by
  unfold ensure_state_consistency
  cases hcd : s.current_date <;> cases hps : s.plan_source <;>
    rw [hcd] at h <;> simp [get_state_hash, hcd, hps, h]

/-- A non-forced save inside the 30-second window is skipped. -/
lemma auto_save_skip_of_rate (connected : Bool) (today now : Int)
    (mgr : ManagerState) (sess : SessionState) (remote : Remote) (force : Bool)
    (h : rate_skip mgr.last_save_time now force = true) :
    (auto_save_state connected today now mgr sess remote force).wrote
      = false := by
  simp only [auto_save_state]
  split
  · rfl
  · simp [h]

/-- A save skipped by the novelty gate performs no write. -/
lemma auto_save_skip_of_novelty (connected : Bool) (today now : Int)
    (mgr : ManagerState) (sess : SessionState) (remote : Remote) (force : Bool)
    (h : novelty_skip mgr.last_state_hash (get_state_hash sess)
          (!sess.actual_execution.isEmpty) force = true) :
    (auto_save_state connected today now mgr sess remote force).wrote
      = false := by
  simp only [auto_save_state]
  split
  · rfl
  · split
    · rfl
    · simp [h]

/-- Without a GitHub connection no write ever happens. -/
lemma auto_save_skip_of_disconnected (today now : Int)
    (mgr : ManagerState) (sess : SessionState) (remote : Remote)
    (force : Bool) :
    (auto_save_state false today now mgr sess remote force).wrote = false := by
  simp only [auto_save_state]
  split
  · rfl
  · split
    · rfl
    · split
      · rfl
      · split
        · rfl
        · split <;> simp [save_to_github]

/-- Without a current plan date the save bails out before writing. -/
lemma auto_save_skip_of_no_date (connected : Bool) (today now : Int)
    (mgr : ManagerState) (sess : SessionState) (remote : Remote) (force : Bool)
    (h : sess.current_date = none) :
    (auto_save_state connected today now mgr sess remote force).wrote
      = false := by
  have h' : (ensure_state_consistency sess).current_date = none := by
    rw [ensure_current_date, h]
  simp only [auto_save_state, h']
  split
  · rfl
  · split
    · rfl
    · split
      · rfl
      · rfl

/-- When every gate passes, the save succeeds and the call's effect is fully
determined: the manager records `now` and the pre-save fingerprint, the
session gets the consistency pass plus fresh save stamps, and the remote
mapping gains/updates the entry for the current plan date. -/
lemma auto_save_state_success (today now : Int)
    (mgr : ManagerState) (sess : SessionState) (remote : Remote)
    (force : Bool) (d : Int)
    (hcd : sess.current_date = some d)
    (hempty : ¬ (¬ force = true ∧ is_empty_state sess = true))
    (hrate : rate_skip mgr.last_save_time now force = false)
    (hnov : novelty_skip mgr.last_state_hash (get_state_hash sess)
      (!sess.actual_execution.isEmpty) force = false) :
    auto_save_state true today now mgr sess remote force =
      ⟨{ last_save_time := some now,
         last_state_hash := some (get_state_hash sess) },
       { ensure_state_consistency sess with
         last_auto_save := some now, last_modified := now },
       dictSet remote d
         (prepare_save_data today now (ensure_state_consistency sess)),
       true, true⟩ := by
  have hcd' : (ensure_state_consistency sess).current_date = some d := by
    rw [ensure_current_date, hcd]
  have hpd := ensure_plan_date sess d hcd
  simp only [auto_save_state, hcd', hempty, hrate, hnov, if_neg, if_false,
    Bool.false_eq_true, ite_false]
  simp [hpd, hcd', save_to_github]

/-- C2 counterexample: with execution data present, two non-forced saves 30
seconds apart with no user mutation in between BOTH perform a remote write —
the source bypasses the novelty gate whenever `actual_execution` is
non-empty ("执行阶段：频繁保存"). -/
theorem c2_idempotent_save_counterexample :
    (auto_save_state true 0 0 {}
      { initialize_new_plan 0 0 with actual_execution := [{}] } [] false).wrote
      = true
    ∧ (auto_save_state true 0 30
        (auto_save_state true 0 0 {}
          { initialize_new_plan 0 0 with actual_execution := [{}] } []
          false).mgr
        (auto_save_state true 0 0 {}
          { initialize_new_plan 0 0 with actual_execution := [{}] } []
          false).sess
        (auto_save_state true 0 0 {}
          { initialize_new_plan 0 0 with actual_execution := [{}] } []
          false).remote false).wrote = true := by
  decide

/-- C2 amended: two successive non-forced saves with no user mutation in
between perform at most one actual remote write PROVIDED the record carries
no execution data (so the novelty gate applies — its fingerprint comparison
also requires `plan_date` to already agree with `current_date`, which every
state the engine itself produced satisfies) or the second call falls within
the 30-second rate window; the second call is then skipped by the rate gate
or by the novelty gate. -/
theorem c2_idempotent_save_amended (connected : Bool) (today t1 t2 : Int)
    (mgr : ManagerState) (sess : SessionState) (remote : Remote)
    (h : (sess.actual_execution = [] ∧ sess.plan_date = sess.current_date)
          ∨ t2 - t1 < 30) :
    ¬ ((auto_save_state connected today t1 mgr sess remote false).wrote = true
       ∧ (auto_save_state connected today t2
            (auto_save_state connected today t1 mgr sess remote false).mgr
            (auto_save_state connected today t1 mgr sess remote false).sess
            (auto_save_state connected today t1 mgr sess remote false).remote
            false).wrote = true) := by
  rintro ⟨w1, w2⟩
  cases hconn : connected with
  | false =>
      rw [hconn] at w1
      simp [auto_save_skip_of_disconnected] at w1
  | true =>
  rw [hconn] at w1 w2
  cases hcd : sess.current_date with
  | none =>
      simp [auto_save_skip_of_no_date true today t1 mgr sess remote false hcd]
        at w1
  | some d =>
  by_cases hrate1 : rate_skip mgr.last_save_time t1 false = true
  · simp [auto_save_skip_of_rate true today t1 mgr sess remote false hrate1]
      at w1
  by_cases hnov1 : novelty_skip mgr.last_state_hash (get_state_hash sess)
      (!sess.actual_execution.isEmpty) false = true
  · simp [auto_save_skip_of_novelty true today t1 mgr sess remote false hnov1]
      at w1
  by_cases hemp1 : is_empty_state sess = true
  · simp [auto_save_skip_of_empty true today t1 mgr sess remote hemp1] at w1
  have hsucc := auto_save_state_success today t1 mgr sess remote false d hcd
    (fun hand => hemp1 hand.2) (by simpa using hrate1) (by simpa using hnov1)
  rw [hsucc] at w2
  have w2' : (auto_save_state true today t2
      { last_save_time := some t1,
        last_state_hash := some (get_state_hash sess) }
      { ensure_state_consistency sess with
        last_auto_save := some t1, last_modified := t1 }
      (dictSet remote d
        (prepare_save_data today t1 (ensure_state_consistency sess)))
      false).wrote = true := w2
  rcases h with ⟨hex, hpdc⟩ | hlt
  · have hex0 : (ensure_state_consistency sess).actual_execution = [] := by
      rw [ensure_actual_execution]; exact hex
    have hhash1 : get_state_hash
        ({ ensure_state_consistency sess with
           last_auto_save := some t1, last_modified := t1 } : SessionState)
        = get_state_hash sess := by
      have h0 : get_state_hash
          ({ ensure_state_consistency sess with
             last_auto_save := some t1, last_modified := t1 } : SessionState)
          = get_state_hash (ensure_state_consistency sess) := rfl
      rw [h0, get_state_hash_ensure sess hpdc]
    have hnov2 : novelty_skip (some (get_state_hash sess))
        (get_state_hash ({ ensure_state_consistency sess with
          last_auto_save := some t1, last_modified := t1 } : SessionState))
        (!({ ensure_state_consistency sess with
            last_auto_save := some t1,
            last_modified := t1 } : SessionState).actual_execution.isEmpty)
        false = true := by
      have hS : ({ ensure_state_consistency sess with
          last_auto_save := some t1,
          last_modified := t1 } : SessionState).actual_execution = [] := hex0
      unfold novelty_skip
      rw [hS, hhash1]
      simp
    simp [auto_save_skip_of_novelty true today t2
      { last_save_time := some t1,
        last_state_hash := some (get_state_hash sess) }
      { ensure_state_consistency sess with
        last_auto_save := some t1, last_modified := t1 }
      (dictSet remote d
        (prepare_save_data today t1 (ensure_state_consistency sess)))
      false hnov2] at w2'
  · have hrate2 : rate_skip (some t1) t2 false = true := by
      simp [rate_skip, hlt]
    simp [auto_save_skip_of_rate true today t2
      { last_save_time := some t1,
        last_state_hash := some (get_state_hash sess) }
      { ensure_state_consistency sess with
        last_auto_save := some t1, last_modified := t1 }
      (dictSet remote d
        (prepare_save_data today t1 (ensure_state_consistency sess)))
      false hrate2] at w2'

/-- Concrete instance of `c2_idempotent_save_amended`: a confirmed plan with
a named task and no execution data is written once; the immediate second
save 100 seconds later is skipped by the novelty gate. -/
theorem c2_idempotent_save_amended_witness :
    ((({ initialize_new_plan 0 0 with
         planned_tasks := [{ task_name := "t" }] } :
          SessionState).actual_execution = []
      ∧ ({ initialize_new_plan 0 0 with
           planned_tasks := [{ task_name := "t" }] } :
            SessionState).plan_date
        = ({ initialize_new_plan 0 0 with
             planned_tasks := [{ task_name := "t" }] } :
              SessionState).current_date)
      ∨ (100 : Int) - 0 < 30)
    ∧ ¬ ((auto_save_state true 0 0 {}
          { initialize_new_plan 0 0 with
            planned_tasks := [{ task_name := "t" }] } [] false).wrote = true
        ∧ (auto_save_state true 0 100
            (auto_save_state true 0 0 {}
              { initialize_new_plan 0 0 with
                planned_tasks := [{ task_name := "t" }] } [] false).mgr
            (auto_save_state true 0 0 {}
              { initialize_new_plan 0 0 with
                planned_tasks := [{ task_name := "t" }] } [] false).sess
            (auto_save_state true 0 0 {}
              { initialize_new_plan 0 0 with
                planned_tasks := [{ task_name := "t" }] } [] false).remote
            false).wrote = true) :=
  ⟨Or.inl ⟨rfl, rfl⟩,
   c2_idempotent_save_amended true 0 0 100 {}
     { initialize_new_plan 0 0 with planned_tasks := [{ task_name := "t" }] }
     [] (Or.inl ⟨rfl, rfl⟩)⟩

/-- Concrete instance of `c3_overlap_amended`: the conflicting pair is
reported and the overnight pair is not. -/
theorem c3_overlap_amended_witness :
    check_time_conflicts
        [mkTimedTask "A" 540 600, mkTimedTask "B" 570 630] = [("A", "B")]
    ∧ check_time_conflicts
        [mkTimedTask "A" 1380 60, mkTimedTask "B" 30 120] = [] :=
  ⟨(c3_overlap_amended "A" "B" 540 600 570 630).2.1,
   (c3_overlap_amended "A" "B" 1380 60 30 120).2.2.2⟩
